import Mathlib

/-!
Verification of the generic CRUD abstraction layer of the api_fibergorm
repository (the Repository/Service/Handler triad with its validation
pipeline, pagination envelope and error mapping), shallowly embedded in
Lean 4.

Modelling conventions, chosen to mirror the Go source:
* `gorm.DeletedAt` soft deletion is modelled by a `deleted : Bool` flag on
  each row; every repository query filters on `!deleted`, exactly as gorm's
  default scope does.
* Prices (`float64` in Go) are modelled as `Int`: the code only compares
  prices with zero and copies them, so no floating-point behaviour is
  exercised.
* Go `len(string)` (bytes) is modelled by `String.utf8ByteSize`; the
  struct-tag validator's `min`/`max` (rune count in validator.v10) by
  `String.length`.
* Storage failures of the persistence collaborator are injected through an
  explicit fault record on the product create path, where claims require
  them; other paths are modelled with a fault-free collaborator.
* Go `map[string]string` validation results are modelled as association
  lists; every validator in the source adds at most one entry per run, so
  key ordering is irrelevant.
-/

deriving instance DecidableEq for Except

/-- The `models.Categoria` entity (id, nome, descricao, ativo, DeletedAt). -/
structure Categoria where
  id : Nat
  nome : String
  descricao : String
  ativo : Bool
  deleted : Bool
deriving DecidableEq, Repr

/-- The `models.Produto` entity (id, codigo, descricao, preco, categoria_id,
DeletedAt via `entity.BaseEntity`). -/
structure Produto where
  id : Nat
  codigo : String
  descricao : String
  preco : Int
  categoriaId : Nat
  deleted : Bool
deriving DecidableEq, Repr

/-- The relational store seen through the gorm handle: the two tables plus
the auto-increment counter for produtos. -/
structure Store where
  categorias : List Categoria
  produtos : List Produto
  nextProdutoId : Nat
deriving DecidableEq, Repr

/-- `BaseRepositoryImpl.FindByID` for Categoria: `First(entity, id)` under
gorm's soft-delete scope. -/
def findCategoriaAliveById (s : Store) (id : Nat) : Option Categoria :=
  s.categorias.find? (fun c => c.id == id && !c.deleted)

/-- `BaseRepositoryImpl.FindByID` for Produto. -/
def findProdutoAliveById (s : Store) (id : Nat) : Option Produto :=
  s.produtos.find? (fun p => p.id == id && !p.deleted)

/-- `CategoriaValidator.countProdutos`: `Model(&Produto{}).Where("categoria_id = ?", id).Count`. -/
def countProdutosAlive (s : Store) (categoriaId : Nat) : Nat :=
  (s.produtos.filter (fun p => p.categoriaId == categoriaId && !p.deleted)).length

/-- `ProdutoRepository.ExistsWhere("codigo = ?", codigo)`: count > 0. -/
def existsProdutoCodigo (s : Store) (codigo : String) : Bool :=
  decide (0 < (s.produtos.filter (fun p => p.codigo == codigo && !p.deleted)).length)

/-- `ProdutoRepository.ExistsWhereExcludingID(id, "codigo = ?", codigo)`. -/
def existsProdutoCodigoExcluding (s : Store) (codigo : String) (id : Nat) : Bool :=
  decide (0 < (s.produtos.filter
    (fun p => p.codigo == codigo && p.id != id && !p.deleted)).length)

/-- `CategoriaRepository.ExistsWhereExcludingID(id, "nome = ?", nome)`. -/
def existsCategoriaNomeExcluding (s : Store) (nome : String) (id : Nat) : Bool :=
  decide (0 < (s.categorias.filter
    (fun c => c.nome == nome && c.id != id && !c.deleted)).length)

/-- `BaseRepositoryImpl.Delete` for Produto rows: soft-deletes the rows
matching the id; `RowsAffected == 0` (no live row carried the id) yields
`ErrNotFound`, modelled as `Except.error ()`. -/
def repoDeleteProdutos (ps : List Produto) (id : Nat) : Except Unit (List Produto) :=
  if (ps.filter (fun p => p.id == id && !p.deleted)).length = 0 then
    .error ()
  else
    .ok (ps.map (fun p => if p.id == id && !p.deleted then { p with deleted := true } else p))

/-- `BaseRepositoryImpl.Delete` for Categoria rows. -/
def repoDeleteCategorias (cs : List Categoria) (id : Nat) : Except Unit (List Categoria) :=
  if (cs.filter (fun c => c.id == id && !c.deleted)).length = 0 then
    .error ()
  else
    .ok (cs.map (fun c => if c.id == id && !c.deleted then { c with deleted := true } else c))

/-- `dto.PaginatedResponse` (generic pagination envelope). -/
structure PaginatedResponse (α : Type) where
  data : List α
  total : Int
  page : Int
  pageSize : Int
  totalPages : Int
deriving DecidableEq, Repr

/-- The total-page computation inside `dto.NewPaginatedResponse`:
`totalPages := int(total) / pageSize` (Go truncated division), `+1` when a
remainder is left, then the `totalPages == 0 && total > 0` guard. -/
def newPaginatedTotalPages (total pageSize : Int) : Int :=
  let tp := total.tdiv pageSize
  let tp := if 0 < total.tmod pageSize then tp + 1 else tp
  if tp = 0 ∧ 0 < total then 1 else tp

/-- `dto.NewPaginatedResponse`. -/
def newPaginatedResponse {α : Type} (data : List α) (total : Int) (page pageSize : Int) :
    PaginatedResponse α :=
  { data := data, total := total, page := page, pageSize := pageSize,
    totalPages := newPaginatedTotalPages total pageSize }

/-- `service.ServiceConfig`. -/
structure ServiceConfig where
  entityName : String
  defaultOrder : String
  maxPageSize : Int
deriving DecidableEq, Repr

/-- `service.DefaultServiceConfig`. -/
def defaultServiceConfig (entityName : String) : ServiceConfig :=
  { entityName := entityName, defaultOrder := ("id ASC"), maxPageSize := 100 }

/-- `BaseServiceImpl.normalizePagination`: page < 1 → 1; pageSize < 1 → 10;
pageSize > MaxPageSize → MaxPageSize (in that order). -/
def normalizePagination (cfg : ServiceConfig) (page pageSize : Int) : Int × Int :=
  let page := if page < 1 then 1 else page
  let pageSize := if pageSize < 1 then 10 else pageSize
  let pageSize := if cfg.maxPageSize < pageSize then cfg.maxPageSize else pageSize
  (page, pageSize)

/-- `BaseRepositoryImpl.FindAll` over the (already soft-delete-filtered,
query-ordered) rows `xs`: counts the whole table, then fetches the page at
`offset := (page-1)*pageSize` with limit `pageSize`. -/
def repoFindAll {α : Type} (xs : List α) (page pageSize : Int) : List α × Int :=
  let offset := (page - 1) * pageSize
  ((xs.drop offset.toNat).take pageSize.toNat, (xs.length : Int))

/-- `BaseServiceImpl.GetAll`: normalizes pagination, queries `FindAll`, maps
each entity to its response and wraps everything in the envelope. -/
def getAllService {α β : Type} (cfg : ServiceConfig) (toResp : α → β) (xs : List α)
    (page pageSize : Int) : PaginatedResponse β :=
  let norm := normalizePagination cfg page pageSize
  let found := repoFindAll xs norm.1 norm.2
  newPaginatedResponse (found.1.map toResp) found.2 norm.1 norm.2

/-- The error vocabulary that reaches `BaseHandlerImpl.HandleError`:
`arqerrors.ValidationErrors`, `arqerrors.BusinessError`, and any other
(unclassified) error such as a storage failure, carrying the internal
detail that must not be echoed. -/
inductive ServiceError where
  | validation (errors : List (String × String))
  | business (code : String) (message : String)
  | storage (detail : String)
deriving DecidableEq, Repr

/-- An HTTP reply as assembled by the generic handler: status code, the
`error` field of `dto.ErrorResponse` (none on success) and its optional
`details` field map. -/
structure HttpReply where
  status : Nat
  error : Option String
  details : Option (List (String × String))
deriving DecidableEq, Repr

/-- `BaseHandlerImpl.HandleError`: validation errors → 400 with field map;
business errors → 404/409/403/409/400 by classification code; anything
else → 500 with a generic constant message (detail only logged). -/
def handleError : ServiceError → HttpReply
  | .validation errs =>
      { status := 400, error := some ("Erro de validação"), details := some errs }
  | .business code msg =>
      if code = ("NOT_FOUND") then { status := 404, error := some msg, details := none }
      else if code = ("DUPLICATE") then { status := 409, error := some msg, details := none }
      else if code = ("FORBIDDEN") then { status := 403, error := some msg, details := none }
      else if code = ("HAS_RELATIONS") then { status := 409, error := some msg, details := none }
      else { status := 400, error := some msg, details := none }
  | .storage _ =>
      { status := 500, error := some ("Erro interno do servidor"), details := none }

/-- `dto.CreateProdutoRequest`. -/
structure CreateProdutoRequest where
  codigo : String
  descricao : String
  preco : Int
  categoriaId : Nat
deriving DecidableEq, Repr

/-- `dto.UpdateProdutoRequest` (all fields optional via zero values). -/
structure UpdateProdutoRequest where
  codigo : String
  descricao : String
  preco : Int
  categoriaId : Nat
deriving DecidableEq, Repr

/-- `dto.UpdateCategoriaRequest`: nome/descricao optional via zero values,
ativo optional via a pointer (`*bool`), modelled as `Option Bool`. -/
structure UpdateCategoriaRequest where
  nome : String
  descricao : String
  ativo : Option Bool
deriving DecidableEq, Repr

/-- Struct-tag validation of `CreateProdutoRequest`
(`codigo: required,min=1,max=50; descricao: required,min=3,max=255;
preco: required,gt=0; categoria_id: required,gt=0`), first failing tag per
field, messages as built by `StructValidator.Validate`. -/
def shapeValidateCreateProduto (req : CreateProdutoRequest) : List (String × String) :=
  (if req.codigo = ("") then [(("Codigo"), ("O campo Codigo é obrigatório"))]
   else if req.codigo.length < 1 then
     [(("Codigo"), ("O campo Codigo deve ter no mínimo 1 caracteres"))]
   else if 50 < req.codigo.length then
     [(("Codigo"), ("O campo Codigo deve ter no máximo 50 caracteres"))]
   else []) ++
  (if req.descricao = ("") then [(("Descricao"), ("O campo Descricao é obrigatório"))]
   else if req.descricao.length < 3 then
     [(("Descricao"), ("O campo Descricao deve ter no mínimo 3 caracteres"))]
   else if 255 < req.descricao.length then
     [(("Descricao"), ("O campo Descricao deve ter no máximo 255 caracteres"))]
   else []) ++
  (if req.preco = 0 then [(("Preco"), ("O campo Preco é obrigatório"))]
   else if req.preco ≤ 0 then [(("Preco"), ("O campo Preco deve ser maior que 0"))]
   else []) ++
  (if req.categoriaId = 0 then [(("CategoriaID"), ("O campo CategoriaID é obrigatório"))]
   else [])

/-- Struct-tag validation of `UpdateProdutoRequest` (same tags with
`omitempty`: a zero value skips the field entirely). -/
def shapeValidateUpdateProduto (req : UpdateProdutoRequest) : List (String × String) :=
  (if req.codigo = ("") then []
   else if 50 < req.codigo.length then
     [(("Codigo"), ("O campo Codigo deve ter no máximo 50 caracteres"))]
   else []) ++
  (if req.descricao = ("") then []
   else if req.descricao.length < 3 then
     [(("Descricao"), ("O campo Descricao deve ter no mínimo 3 caracteres"))]
   else if 255 < req.descricao.length then
     [(("Descricao"), ("O campo Descricao deve ter no máximo 255 caracteres"))]
   else []) ++
  (if req.preco = 0 then []
   else if req.preco ≤ 0 then [(("Preco"), ("O campo Preco deve ser maior que 0"))]
   else [])

/-- Struct-tag validation of `UpdateCategoriaRequest`
(`nome: omitempty,min=2,max=100; descricao: omitempty,max=255;
ativo: omitempty`). -/
def shapeValidateUpdateCategoria (req : UpdateCategoriaRequest) : List (String × String) :=
  (if req.nome = ("") then []
   else if req.nome.length < 2 then
     [(("Nome"), ("O campo Nome deve ter no mínimo 2 caracteres"))]
   else if 100 < req.nome.length then
     [(("Nome"), ("O campo Nome deve ter no máximo 100 caracteres"))]
   else []) ++
  (if req.descricao = ("") then []
   else if 255 < req.descricao.length then
     [(("Descricao"), ("O campo Descricao deve ter no máximo 255 caracteres"))]
   else [])

/-- Fault injection for the storage collaborator on the product create
path: `some detail` makes the corresponding repository call fail with an
unclassified storage error carrying that detail. -/
structure CreateFaults where
  existsCodigo : Option String
  findCategoria : Option String
  create : Option String
deriving DecidableEq, Repr

/-- The uniqueness query `v.repo.ExistsWhere("codigo = ?", req.Codigo)`
as seen by `ProdutoValidator.ValidateCreate`, with fault injection. -/
def produtoExistsQuery (f : CreateFaults) (s : Store) (codigo : String) :
    Except String Bool :=
  match f.existsCodigo with
  | some d => .error d
  | none => .ok (existsProdutoCodigo s codigo)

/-- `ProdutoValidator.findCategoria`: `v.db.First(&categoria, id)` (gorm
soft-delete scope applies), with fault injection; any error is reported
to the caller undistinguished from "not found", as in the source. -/
def produtoFindCategoriaQuery (f : CreateFaults) (s : Store) (id : Nat) :
    Except String Categoria :=
  match f.findCategoria with
  | some d => .error d
  | none =>
    match findCategoriaAliveById s id with
    | some c => .ok c
    | none => .error ("record not found")

/-- `ProdutoValidator.ValidateCreate`: the fail-fast business check chain
for product creation, returning the field→message map (at most one entry;
every failing branch returns immediately). -/
def validateCreateProduto (f : CreateFaults) (s : Store) (req : CreateProdutoRequest) :
    List (String × String) :=
  if req.codigo = ("") then
    [(("codigo"), ("O código do produto é obrigatório"))]
  else
    match produtoExistsQuery f s req.codigo with
    | .error _ => [(("codigo"), ("Erro ao verificar código"))]
    | .ok true => [(("codigo"), ("Já existe um produto com este código"))]
    | .ok false =>
      if req.preco ≤ 0 then
        [(("preco"), ("O preço deve ser maior que zero"))]
      else if req.descricao.utf8ByteSize < 3 then
        [(("descricao"), ("A descrição deve ter pelo menos 3 caracteres"))]
      else if req.categoriaId = 0 then
        [(("categoria_id"), ("A categoria é obrigatória"))]
      else
        match produtoFindCategoriaQuery f s req.categoriaId with
        | .error _ => [(("categoria_id"), ("Categoria não encontrada"))]
        | .ok cat =>
          if !cat.ativo then
            [(("categoria_id"), ("Categoria inativa não pode ser utilizada"))]
          else []

/-- `ProdutoValidator.ValidateUpdate` (fault-free collaborator). -/
def validateUpdateProduto (s : Store) (entity : Produto) (entityId : Nat)
    (req : UpdateProdutoRequest) : List (String × String) :=
  if req.codigo ≠ ("") ∧ req.codigo ≠ entity.codigo ∧
      existsProdutoCodigoExcluding s req.codigo entityId then
    [(("codigo"), ("Já existe outro produto com este código"))]
  else if req.preco ≠ 0 ∧ req.preco ≤ 0 then
    [(("preco"), ("O preço deve ser maior que zero"))]
  else if req.descricao ≠ ("") ∧ req.descricao.utf8ByteSize < 3 then
    [(("descricao"), ("A descrição deve ter pelo menos 3 caracteres"))]
  else if req.categoriaId ≠ 0 ∧ req.categoriaId ≠ entity.categoriaId then
    match findCategoriaAliveById s req.categoriaId with
    | none => [(("categoria_id"), ("Categoria não encontrada"))]
    | some cat =>
      if !cat.ativo then
        [(("categoria_id"), ("Categoria inativa não pode ser utilizada"))]
      else []
  else []

/-- `CategoriaValidator.ValidateUpdate` (fault-free collaborator). -/
def validateUpdateCategoria (s : Store) (entity : Categoria) (entityId : Nat)
    (req : UpdateCategoriaRequest) : List (String × String) :=
  if req.nome ≠ ("") ∧ req.nome ≠ entity.nome then
    if req.nome.utf8ByteSize < 2 then
      [(("nome"), ("O nome deve ter pelo menos 2 caracteres"))]
    else if existsCategoriaNomeExcluding s req.nome entityId then
      [(("nome"), ("Já existe outra categoria com este nome"))]
    else []
  else []

/-- `ProdutoMapper.ToEntity`. -/
def produtoToEntity (req : CreateProdutoRequest) : Produto :=
  { id := 0, codigo := req.codigo, descricao := req.descricao,
    preco := req.preco, categoriaId := req.categoriaId, deleted := false }

/-- `ProdutoMapper.ApplyUpdate`: partial-update semantics, a zero-valued
request field leaves the entity field untouched. -/
def applyUpdateProduto (e : Produto) (req : UpdateProdutoRequest) : Produto :=
  let e := if req.codigo ≠ ("") then { e with codigo := req.codigo } else e
  let e := if req.descricao ≠ ("") then { e with descricao := req.descricao } else e
  let e := if req.preco ≠ 0 then { e with preco := req.preco } else e
  if req.categoriaId ≠ 0 then { e with categoriaId := req.categoriaId } else e

/-- `CategoriaMapper.ApplyUpdate`: nome/descricao by zero value, ativo by
pointer presence. -/
def applyUpdateCategoria (e : Categoria) (req : UpdateCategoriaRequest) : Categoria :=
  let e := if req.nome ≠ ("") then { e with nome := req.nome } else e
  let e := if req.descricao ≠ ("") then { e with descricao := req.descricao } else e
  match req.ativo with
  | some b => { e with ativo := b }
  | none => e

/-- `BaseServiceImpl.Create` instantiated for Produto (struct validation,
then `ProdutoValidator.ValidateCreate`, then `ToEntity` and `repo.Create`,
which assigns the storage identifier); returns the outcome and the store
after the call. -/
def serviceCreateProduto (f : CreateFaults) (s : Store) (req : CreateProdutoRequest) :
    Except ServiceError Produto × Store :=
  if (shapeValidateCreateProduto req).isEmpty then
    if (validateCreateProduto f s req).isEmpty then
      match f.create with
      | some d => (.error (.storage d), s)
      | none =>
        let created := { produtoToEntity req with id := s.nextProdutoId }
        (.ok created,
         { s with produtos := s.produtos ++ [created],
                  nextProdutoId := s.nextProdutoId + 1 })
    else (.error (.validation (validateCreateProduto f s req)), s)
  else (.error (.validation (shapeValidateCreateProduto req)), s)

/-- `BaseServiceImpl.Update` instantiated for Produto: fetch-or-NotFound,
struct validation, `ProdutoValidator.ValidateUpdate`, `ApplyUpdate`, then
`repo.Update` (`db.Save`, full-row update by identifier). -/
def serviceUpdateProduto (s : Store) (id : Nat) (req : UpdateProdutoRequest) :
    Except ServiceError Produto × Store :=
  match findProdutoAliveById s id with
  | none => (.error (.business ("NOT_FOUND") ("Produto não encontrado(a)")), s)
  | some e =>
    if (shapeValidateUpdateProduto req).isEmpty then
      if (validateUpdateProduto s e id req).isEmpty then
        let e2 := applyUpdateProduto e req
        (.ok e2,
         { s with produtos :=
            s.produtos.map (fun p => if p.id == id && !p.deleted then e2 else p) })
      else (.error (.validation (validateUpdateProduto s e id req)), s)
    else (.error (.validation (shapeValidateUpdateProduto req)), s)

/-- `BaseServiceImpl.Update` instantiated for Categoria. -/
def serviceUpdateCategoria (s : Store) (id : Nat) (req : UpdateCategoriaRequest) :
    Except ServiceError Categoria × Store :=
  match findCategoriaAliveById s id with
  | none => (.error (.business ("NOT_FOUND") ("Categoria não encontrado(a)")), s)
  | some e =>
    if (shapeValidateUpdateCategoria req).isEmpty then
      if (validateUpdateCategoria s e id req).isEmpty then
        let e2 := applyUpdateCategoria e req
        (.ok e2,
         { s with categorias :=
            s.categorias.map (fun c => if c.id == id && !c.deleted then e2 else c) })
      else (.error (.validation (validateUpdateCategoria s e id req)), s)
    else (.error (.validation (shapeValidateUpdateCategoria req)), s)

/-- `BaseServiceImpl.Delete` instantiated for Categoria: fetch-or-NotFound,
`CategoriaValidator.ValidateDelete` (refuse while any product references
the category), then `repo.Delete`; a repository `ErrNotFound` there is
passed through unclassified. -/
def serviceDeleteCategoria (s : Store) (id : Nat) : Except ServiceError Unit × Store :=
  match findCategoriaAliveById s id with
  | none => (.error (.business ("NOT_FOUND") ("Categoria não encontrado(a)")), s)
  | some cat =>
    if 0 < countProdutosAlive s cat.id then
      (.error (.validation
        [(("categoria"), ("Não é possível excluir uma categoria que possui produtos"))]), s)
    else
      match repoDeleteCategorias s.categorias id with
      | .error _ => (.error (.storage ("registro não encontrado")), s)
      | .ok cs => (.ok (), { s with categorias := cs })

/-- `BaseHandlerImpl.Create` instantiated for Produto: handler-level struct
validation (early rejection), then the Service; Service errors go through
`HandleError`, success yields 201. -/
def handlerCreateProduto (f : CreateFaults) (s : Store) (req : CreateProdutoRequest) :
    HttpReply × Store :=
  if (shapeValidateCreateProduto req).isEmpty then
    match serviceCreateProduto f s req with
    | (.ok _, s2) => ({ status := 201, error := none, details := none }, s2)
    | (.error e, s2) => (handleError e, s2)
  else
    ({ status := 400, error := some ("Erro de validação"),
       details := some (shapeValidateCreateProduto req) }, s)

/-- `BaseHandlerImpl.Delete` instantiated for Categoria: Service errors go
through `HandleError`, success yields 200 with the success message. -/
def handlerDeleteCategoria (s : Store) (id : Nat) : HttpReply × Store :=
  match serviceDeleteCategoria s id with
  | (.ok _, s2) => ({ status := 200, error := none, details := none }, s2)
  | (.error e, s2) => (handleError e, s2)

/-- `produtoService.GetByCategoriaID`: inline pagination normalization
(max hardcoded to 100), category existence check, `FindAllWhere` on
`categoria_id`, envelope construction. Response mapping is per-row and
preserves the envelope, so rows are kept as entities here. -/
def getByCategoriaID (s : Store) (categoriaId : Nat) (page pageSize : Int) :
    Except ServiceError (PaginatedResponse Produto) :=
  let page := if page < 1 then 1 else page
  let pageSize := if pageSize < 1 then 10 else pageSize
  let pageSize := if 100 < pageSize then 100 else pageSize
  if (s.categorias.filter (fun c => c.id == categoriaId && !c.deleted)).length = 0 then
    .error (.business ("NOT_FOUND") ("Categoria não encontrada"))
  else
    let rows := s.produtos.filter (fun p => p.categoriaId == categoriaId && !p.deleted)
    let found := repoFindAll rows page pageSize
    .ok (newPaginatedResponse found.1 found.2 page pageSize)

/-- The ordered list of business checks for product creation as the spec
declares them: code non-empty, code uniqueness, price positivity,
description length, category presence, category existence, category
active-state. Each entry is (fails?, field, message). -/
def produtoCreateChecks (s : Store) (req : CreateProdutoRequest) :
    List (Bool × String × String) :=
  [ (req.codigo == (""), ("codigo"), ("O código do produto é obrigatório")),
    (existsProdutoCodigo s req.codigo, ("codigo"), ("Já existe um produto com este código")),
    (decide (req.preco ≤ 0), ("preco"), ("O preço deve ser maior que zero")),
    (decide (req.descricao.utf8ByteSize < 3), ("descricao"),
      ("A descrição deve ter pelo menos 3 caracteres")),
    (req.categoriaId == 0, ("categoria_id"), ("A categoria é obrigatória")),
    ((findCategoriaAliveById s req.categoriaId).isNone, ("categoria_id"),
      ("Categoria não encontrada")),
    ((match findCategoriaAliveById s req.categoriaId with
      | some c => !c.ativo
      | none => false), ("categoria_id"), ("Categoria inativa não pode ser utilizada")) ]

/-- First-failing-check policy over an ordered check list: the result is
the first failing check's field and message, or empty when every check
passes. -/
def firstFailingCheck : List (Bool × String × String) → List (String × String)
  | [] => []
  | (b, field, msg) :: rest => if b then [(field, msg)] else firstFailingCheck rest

/-- Modelled from the spec: the page normalization rule "page < 1 becomes
1" stated as an independent rewrite, for comparison with the sequential
`normalizePagination`. -/
def specNormPage (page : Int) : Int :=
  if page < 1 then 1 else page

/-- Modelled from the spec: the pageSize normalization rules "pageSize < 1
becomes 10" and "pageSize greater than the configured maximum becomes that
maximum" stated as independent rewrites. -/
def specNormPageSize (maxPageSize pageSize : Int) : Int :=
  if pageSize < 1 then 10
  else if maxPageSize < pageSize then maxPageSize
  else pageSize

/-- A fault-free collaborator. -/
def noFaults : CreateFaults :=
  { existsCodigo := none, findCategoria := none, create := none }

/-- A concrete store: one active category (id 1) referenced by one live
product (id 1, code PROD001). -/
def exStore : Store :=
  { categorias := [{ id := 1, nome := ("Eletrônicos"), descricao := (""),
                     ativo := true, deleted := false }],
    produtos := [{ id := 1, codigo := ("PROD001"), descricao := ("Notebook"),
                   preco := 3599, categoriaId := 1, deleted := false }],
    nextProdutoId := 2 }

/-- `exStore` after its only product was soft-deleted. -/
def exStoreNoProduto : Store :=
  { categorias := [{ id := 1, nome := ("Eletrônicos"), descricao := (""),
                     ativo := true, deleted := false }],
    produtos := [{ id := 1, codigo := ("PROD001"), descricao := ("Notebook"),
                   preco := 3599, categoriaId := 1, deleted := true }],
    nextProdutoId := 2 }

/-- The product stored in `exStore`. -/
def exProduto : Produto :=
  { id := 1, codigo := ("PROD001"), descricao := ("Notebook"),
    preco := 3599, categoriaId := 1, deleted := false }

/-- The category stored in `exStore`. -/
def exCategoria : Categoria :=
  { id := 1, nome := ("Eletrônicos"), descricao := (""), ativo := true, deleted := false }

/-- An update request setting only the price (all other fields zero-valued). -/
def exUpdatePrecoReq : UpdateProdutoRequest :=
  { codigo := (""), descricao := (""), preco := 150, categoriaId := 0 }

/-- A category update request with the active pointer omitted. -/
def exUpdateAtivoNoneReq : UpdateCategoriaRequest :=
  { nome := (""), descricao := (""), ativo := none }

/-- A category update request explicitly carrying active = false. -/
def exUpdateAtivoFalseReq : UpdateCategoriaRequest :=
  { nome := (""), descricao := (""), ativo := some false }

/-- A well-formed create request whose code duplicates `exStore`'s product. -/
def exDupCreateReq : CreateProdutoRequest :=
  { codigo := ("PROD001"), descricao := ("Mouse sem fio"), preco := 50, categoriaId := 1 }

/-- A well-formed create request with a fresh code. -/
def exNewCreateReq : CreateProdutoRequest :=
  { codigo := ("PROD002"), descricao := ("Teclado"), preco := 99, categoriaId := 1 }

/-- A create request violating both the code and the price business rules. -/
def exEmptyCodigoReq : CreateProdutoRequest :=
  { codigo := (""), descricao := (""), preco := -5, categoriaId := 0 }

/-- Faults making the uniqueness query fail with a storage error. -/
def exFaultExists : CreateFaults :=
  { existsCodigo := some ("connection refused"), findCategoria := none, create := none }

/-- Faults making the persistence call itself fail with a storage error. -/
def exFaultCreate : CreateFaults :=
  { existsCodigo := none, findCategoria := none, create := some ("disk full") }

/-- Helper: marking every live row carrying `id` as deleted leaves no live
row carrying `id`. -/
theorem filter_after_mark_deleted (ps : List Produto) (id : Nat) :
    (ps.map (fun p => if p.id == id && !p.deleted then { p with deleted := true } else p)).filter
      (fun p => p.id == id && !p.deleted) = [] := by
  rw [List.filter_eq_nil_iff]
  intro a ha
  rcases List.mem_map.mp ha with ⟨b, hb, rfl⟩
  by_cases hc : (b.id == id && !b.deleted) = true
  · rw [if_pos hc]
    simp
  · rw [if_neg hc]
    exact hc
theorem C6_pagination_envelope_invariant (total pageSize : Int)
    (htotal : 0 ≤ total) (hps : 1 ≤ pageSize) :
    (newPaginatedTotalPages total pageSize = 0 ↔ total = 0) ∧
    (0 < total → newPaginatedTotalPages total pageSize = ⌈(total : ℚ) / (pageSize : ℚ)⌉) ∧
    (0 < total → total < pageSize → newPaginatedTotalPages total pageSize = 1) := by
  obtain ⟨m, rfl⟩ := Int.eq_ofNat_of_zero_le htotal
  obtain ⟨n, rfl⟩ := Int.eq_ofNat_of_zero_le (le_trans zero_le_one hps)
  have hn : 1 ≤ n := by exact_mod_cast hps
  have hdm : n * (m / n) + m % n = m := Nat.div_add_mod m n
  have hml : m % n < n := Nat.mod_lt _ (by omega)
  have htd : ((m : Int)).tdiv ((n : Int)) = ((m / n : Nat) : Int) := rfl
  have htm : ((m : Int)).tmod ((n : Int)) = ((m % n : Nat) : Int) := rfl
  have hnQ : (0 : ℚ) < ((n : Nat) : ℚ) := by exact_mod_cast (by omega : 0 < n)
  have hnQ1 : (1 : ℚ) ≤ ((n : Nat) : ℚ) := by exact_mod_cast hn
  rcases Nat.eq_zero_or_pos (m % n) with hr | hr
  · have hmn : m / n * n = m := Nat.div_mul_cancel (Nat.dvd_of_mod_eq_zero hr)
    have hk : newPaginatedTotalPages ((m : Nat) : Int) ((n : Nat) : Int)
        = ((m / n : Nat) : Int) := by
      simp only [newPaginatedTotalPages, htd, htm, hr]
      norm_num
      intro h1 h2
      have h1' : m / n = 0 := by exact_mod_cast h1
      rw [h1'] at hmn
      simp at hmn
      omega
    refine ⟨?_, ?_, ?_⟩
    · rw [hk]
      constructor
      · intro h
        have h' : m / n = 0 := by exact_mod_cast h
        have : m = 0 := by rw [← hmn, h']; simp
        exact_mod_cast this
      · intro h
        have h' : m = 0 := by exact_mod_cast h
        subst h'
        simp
    · intro hpos
      have key : ((m / n : Nat) : ℚ) * ((n : Nat) : ℚ) = ((m : Nat) : ℚ) := by
        exact_mod_cast congrArg (Nat.cast (R := ℚ)) hmn
      rw [hk, eq_comm, Int.ceil_eq_iff]
      generalize hq : m / n = q at key ⊢
      constructor
      · push_cast
        rw [lt_div_iff₀ hnQ]
        nlinarith [key, hnQ1]
      · push_cast
        rw [div_le_iff₀ hnQ]
        nlinarith [key]
    · intro hpos hlt
      exfalso
      have hmpos : 0 < m := by exact_mod_cast hpos
      have hltn : m < n := by exact_mod_cast hlt
      have hmm := Nat.mod_eq_of_lt hltn
      omega
  · have hk : newPaginatedTotalPages ((m : Nat) : Int) ((n : Nat) : Int)
        = ((m / n + 1 : Nat) : Int) := by
      simp only [newPaginatedTotalPages, htd, htm]
      norm_num [hr]
      have hc : (0 : Int) < ((m : Int)) % ((n : Int)) := by
        exact_mod_cast hr
      rw [if_pos hc, if_neg]
      rintro ⟨h1, -⟩
      have hnn : (0 : Int) ≤ ((m : Int)) / ((n : Int)) :=
        Int.ediv_nonneg (by positivity) (by positivity)
      linarith
    refine ⟨?_, ?_, ?_⟩
    · rw [hk]
      constructor
      · intro h
        exfalso
        have h' : m / n + 1 = 0 := by exact_mod_cast h
        simp at h'
      · intro h
        exfalso
        have h' : m = 0 := by exact_mod_cast h
        subst h'
        simp at hr
    · intro hpos
      have key : ((n : Nat) : ℚ) * ((m / n : Nat) : ℚ) + ((m % n : Nat) : ℚ)
          = ((m : Nat) : ℚ) := by
        exact_mod_cast congrArg (Nat.cast (R := ℚ)) hdm
      have hrQ : (0 : ℚ) < ((m % n : Nat) : ℚ) := by exact_mod_cast hr
      have hrleQ : ((m % n : Nat) : ℚ) ≤ ((n : Nat) : ℚ) := by exact_mod_cast hml.le
      rw [hk, eq_comm, Int.ceil_eq_iff]
      generalize hq : m / n = q at key ⊢
      constructor
      · push_cast
        rw [lt_div_iff₀ hnQ]
        nlinarith [key, hrQ]
      · push_cast
        rw [div_le_iff₀ hnQ]
        nlinarith [key, hrleQ]
    · intro hpos hlt
      have hltn : m < n := by exact_mod_cast hlt
      rw [hk, Nat.div_eq_of_lt hltn]
      norm_num

theorem C6_pagination_envelope_invariant_witness :
    (0 : Int) ≤ 25 ∧ (1 : Int) ≤ 10 ∧
    ((newPaginatedTotalPages 25 10 = 0 ↔ (25 : Int) = 0) ∧
     ((0 : Int) < 25 → newPaginatedTotalPages 25 10 = ⌈(25 : ℚ) / (10 : ℚ)⌉) ∧
     ((0 : Int) < 25 → (25 : Int) < 10 → newPaginatedTotalPages 25 10 = 1)) :=
  ⟨by norm_num, by norm_num,
   C6_pagination_envelope_invariant 25 10 (by norm_num) (by norm_num)⟩

/-- Claim C8: repository Delete(id) fails with NotFound exactly when zero
rows are affected; an already-deleted id and a never-existing id fail
identically, and a second Delete of the same id after a successful first
Delete also yields NotFound. -/
theorem C8_repo_delete_notfound_iff_zero_rows (ps : List Produto) (id : Nat) :
    (repoDeleteProdutos ps id = .error () ↔
      (ps.filter (fun p => p.id == id && !p.deleted)).length = 0) ∧
    ((∀ p ∈ ps, p.id = id → p.deleted = true) → repoDeleteProdutos ps id = .error ()) ∧
    (∀ ps2, repoDeleteProdutos ps id = .ok ps2 → repoDeleteProdutos ps2 id = .error ()) := by
  refine ⟨?_, ?_, ?_⟩
  · unfold repoDeleteProdutos
    by_cases h : (ps.filter (fun p => p.id == id && !p.deleted)).length = 0
    · simp [h]
    · simp [h]
  · intro hall
    have hnil : ps.filter (fun p => p.id == id && !p.deleted) = [] := by
      rw [List.filter_eq_nil_iff]
      intro a ha
      simp only [Bool.and_eq_true, beq_iff_eq, Bool.not_eq_true', not_and]
      intro hid
      rw [hall a ha hid]
      simp
    unfold repoDeleteProdutos
    simp [hnil]
  · intro ps2 hok
    unfold repoDeleteProdutos at hok ⊢
    by_cases h : (ps.filter (fun p => p.id == id && !p.deleted)).length = 0
    · simp [h] at hok
    · rw [if_neg h, Except.ok.injEq] at hok
      subst hok
      rw [if_pos]
      simp only [filter_after_mark_deleted, List.length_nil]

theorem C8_repo_delete_notfound_iff_zero_rows_witness :
    (∀ p ∈ exStoreNoProduto.produtos, p.id = 1 → p.deleted = true) ∧
    repoDeleteProdutos exStoreNoProduto.produtos 1 = .error () :=
  ⟨by decide,
   (C8_repo_delete_notfound_iff_zero_rows exStoreNoProduto.produtos 1).2.1 (by decide)⟩

/-- Helper: field projections of `ProdutoMapper.ApplyUpdate`. -/
theorem applyUpdateProduto_fields (e : Produto) (req : UpdateProdutoRequest) :
    (applyUpdateProduto e req).id = e.id ∧
    (applyUpdateProduto e req).deleted = e.deleted ∧
    (applyUpdateProduto e req).codigo
      = (if req.codigo ≠ ("") then req.codigo else e.codigo) ∧
    (applyUpdateProduto e req).descricao
      = (if req.descricao ≠ ("") then req.descricao else e.descricao) ∧
    (applyUpdateProduto e req).preco = (if req.preco ≠ 0 then req.preco else e.preco) ∧
    (applyUpdateProduto e req).categoriaId
      = (if req.categoriaId ≠ 0 then req.categoriaId else e.categoriaId) := by
  unfold applyUpdateProduto
  split_ifs <;> simp_all

/-- Helper: field projections of `CategoriaMapper.ApplyUpdate`. -/
theorem applyUpdateCategoria_fields (e : Categoria) (req : UpdateCategoriaRequest) :
    (applyUpdateCategoria e req).id = e.id ∧
    (applyUpdateCategoria e req).deleted = e.deleted ∧
    (applyUpdateCategoria e req).ativo
      = (match req.ativo with | some b => b | none => e.ativo) := by
  unfold applyUpdateCategoria
  cases req.ativo <;> split_ifs <;> simp_all

/-- Helper: after a full-row save replacing every live row carrying `id`,
lookup by `id` returns the saved row. -/
theorem find_after_save_produto (ps : List Produto) (id : Nat) (e e2 : Produto)
    (hfind : ps.find? (fun p => p.id == id && !p.deleted) = some e)
    (h2 : (e2.id == id && !e2.deleted) = true) :
    (ps.map (fun p => if p.id == id && !p.deleted then e2 else p)).find?
      (fun p => p.id == id && !p.deleted) = some e2 := by
  induction ps with
  | nil => simp at hfind
  | cons p ps ih =>
    by_cases hc : (p.id == id && !p.deleted) = true
    · simp only [List.map_cons, if_pos hc]
      exact @List.find?_cons_of_pos _ (fun q => q.id == id && !q.deleted) e2 _ h2
    · rw [@List.find?_cons_of_neg _ (fun q => q.id == id && !q.deleted) p _ hc] at hfind
      simp only [List.map_cons, if_neg hc]
      rw [@List.find?_cons_of_neg _ (fun q => q.id == id && !q.deleted) p _ hc]
      exact ih hfind

/-- Helper: the Categoria version of `find_after_save_produto`. -/
theorem find_after_save_categoria (cs : List Categoria) (id : Nat) (e e2 : Categoria)
    (hfind : cs.find? (fun c => c.id == id && !c.deleted) = some e)
    (h2 : (e2.id == id && !e2.deleted) = true) :
    (cs.map (fun c => if c.id == id && !c.deleted then e2 else c)).find?
      (fun c => c.id == id && !c.deleted) = some e2 := by
  induction cs with
  | nil => simp at hfind
  | cons c cs ih =>
    by_cases hc : (c.id == id && !c.deleted) = true
    · simp only [List.map_cons, if_pos hc]
      exact @List.find?_cons_of_pos _ (fun q => q.id == id && !q.deleted) e2 _ h2
    · rw [@List.find?_cons_of_neg _ (fun q => q.id == id && !q.deleted) c _ hc] at hfind
      simp only [List.map_cons, if_neg hc]
      rw [@List.find?_cons_of_neg _ (fun q => q.id == id && !q.deleted) c _ hc]
      exact ih hfind

/-- Claim C5: a successful product update whose request sets only the price
leaves the stored code, description and category reference unchanged; in
general every zero-valued request field leaves the corresponding entity
field untouched. -/
theorem C5_partial_update_price_frame (s : Store) (id : Nat)
    (req : UpdateProdutoRequest) (e r : Produto)
    (hfind : findProdutoAliveById s id = some e)
    (hcod : req.codigo = (""))
    (hdesc : req.descricao = (""))
    (hcat : req.categoriaId = 0)
    (hok : (serviceUpdateProduto s id req).1 = .ok r) :
    (findProdutoAliveById (serviceUpdateProduto s id req).2 id
        = some (applyUpdateProduto e req)) ∧
    (applyUpdateProduto e req).codigo = e.codigo ∧
    (applyUpdateProduto e req).descricao = e.descricao ∧
    (applyUpdateProduto e req).categoriaId = e.categoriaId ∧
    (applyUpdateProduto e req).preco = (if req.preco ≠ 0 then req.preco else e.preco) ∧
    (∀ (e0 : Produto) (req0 : UpdateProdutoRequest),
      (req0.codigo = ("") → (applyUpdateProduto e0 req0).codigo = e0.codigo) ∧
      (req0.descricao = ("") → (applyUpdateProduto e0 req0).descricao = e0.descricao) ∧
      (req0.preco = 0 → (applyUpdateProduto e0 req0).preco = e0.preco) ∧
      (req0.categoriaId = 0 → (applyUpdateProduto e0 req0).categoriaId = e0.categoriaId)) := by
  obtain ⟨hid, hdel, hcodf, hdescf, hprecof, hcatf⟩ := applyUpdateProduto_fields e req
  have hfind2 : s.produtos.find? (fun q => q.id == id && !q.deleted) = some e := hfind
  have hpred : (e.id == id && !e.deleted) = true :=
    @List.find?_some _ (fun q => q.id == id && !q.deleted) e _ hfind2
  have h2 : ((applyUpdateProduto e req).id == id && !(applyUpdateProduto e req).deleted)
      = true := by
    rw [hid, hdel]
    exact hpred
  refine ⟨?_, ?_, ?_, ?_, hprecof, ?_⟩
  · unfold serviceUpdateProduto
    rw [hfind]
    dsimp only
    by_cases hshape : (shapeValidateUpdateProduto req).isEmpty
    · rw [if_pos hshape]
      by_cases hbiz : (validateUpdateProduto s e id req).isEmpty
      · rw [if_pos hbiz]
        exact find_after_save_produto s.produtos id e (applyUpdateProduto e req) hfind2 h2
      · exfalso
        unfold serviceUpdateProduto at hok
        rw [hfind] at hok
        dsimp only at hok
        rw [if_pos hshape, if_neg hbiz] at hok
        simp at hok
    · exfalso
      unfold serviceUpdateProduto at hok
      rw [hfind] at hok
      dsimp only at hok
      rw [if_neg hshape] at hok
      simp at hok
  · rw [hcodf, if_neg (by simp [hcod])]
  · rw [hdescf, if_neg (by simp [hdesc])]
  · rw [hcatf, if_neg (by simp [hcat])]
  · intro e0 req0
    obtain ⟨-, -, hc0, hd0, hp0, hg0⟩ := applyUpdateProduto_fields e0 req0
    refine ⟨?_, ?_, ?_, ?_⟩
    · intro h; rw [hc0, if_neg (by simp [h])]
    · intro h; rw [hd0, if_neg (by simp [h])]
    · intro h; rw [hp0, if_neg (by simp [h])]
    · intro h; rw [hg0, if_neg (by simp [h])]

theorem C5_partial_update_price_frame_witness :
    (findProdutoAliveById exStore 1 = some exProduto ∧
     exUpdatePrecoReq.codigo = ("") ∧ exUpdatePrecoReq.descricao = ("") ∧
     exUpdatePrecoReq.categoriaId = 0 ∧
     (serviceUpdateProduto exStore 1 exUpdatePrecoReq).1
        = .ok (applyUpdateProduto exProduto exUpdatePrecoReq)) ∧
    ((findProdutoAliveById (serviceUpdateProduto exStore 1 exUpdatePrecoReq).2 1
        = some (applyUpdateProduto exProduto exUpdatePrecoReq)) ∧
     (applyUpdateProduto exProduto exUpdatePrecoReq).codigo = exProduto.codigo ∧
     (applyUpdateProduto exProduto exUpdatePrecoReq).descricao = exProduto.descricao ∧
     (applyUpdateProduto exProduto exUpdatePrecoReq).categoriaId = exProduto.categoriaId ∧
     (applyUpdateProduto exProduto exUpdatePrecoReq).preco
        = (if exUpdatePrecoReq.preco ≠ 0 then exUpdatePrecoReq.preco else exProduto.preco) ∧
     (∀ (e0 : Produto) (req0 : UpdateProdutoRequest),
       (req0.codigo = ("") → (applyUpdateProduto e0 req0).codigo = e0.codigo) ∧
       (req0.descricao = ("") → (applyUpdateProduto e0 req0).descricao = e0.descricao) ∧
       (req0.preco = 0 → (applyUpdateProduto e0 req0).preco = e0.preco) ∧
       (req0.categoriaId = 0 →
         (applyUpdateProduto e0 req0).categoriaId = e0.categoriaId))) :=
  ⟨⟨by decide, rfl, rfl, rfl, by decide⟩,
   C5_partial_update_price_frame exStore 1 exUpdatePrecoReq exProduto
     (applyUpdateProduto exProduto exUpdatePrecoReq)
     (by decide) rfl rfl rfl (by decide)⟩

/-- Claim C9: the category update request carries the active flag as a
pointer: a successful update with the pointer omitted leaves the stored
active flag unchanged, while an update explicitly carrying active = false
stores false. -/
theorem C9_categoria_ativo_pointer_semantics (s : Store) (id : Nat)
    (req : UpdateCategoriaRequest) (e r : Categoria)
    (hfind : findCategoriaAliveById s id = some e)
    (hok : (serviceUpdateCategoria s id req).1 = .ok r) :
    (findCategoriaAliveById (serviceUpdateCategoria s id req).2 id
        = some (applyUpdateCategoria e req)) ∧
    (req.ativo = none → (applyUpdateCategoria e req).ativo = e.ativo) ∧
    (req.ativo = some false → (applyUpdateCategoria e req).ativo = false) := by
  obtain ⟨hid, hdel, hativo⟩ := applyUpdateCategoria_fields e req
  have hfind2 : s.categorias.find? (fun q => q.id == id && !q.deleted) = some e := hfind
  have hpred : (e.id == id && !e.deleted) = true :=
    @List.find?_some _ (fun q => q.id == id && !q.deleted) e _ hfind2
  have h2 : ((applyUpdateCategoria e req).id == id && !(applyUpdateCategoria e req).deleted)
      = true := by
    rw [hid, hdel]
    exact hpred
  refine ⟨?_, ?_, ?_⟩
  · unfold serviceUpdateCategoria
    rw [hfind]
    dsimp only
    by_cases hshape : (shapeValidateUpdateCategoria req).isEmpty
    · rw [if_pos hshape]
      by_cases hbiz : (validateUpdateCategoria s e id req).isEmpty
      · rw [if_pos hbiz]
        exact find_after_save_categoria s.categorias id e (applyUpdateCategoria e req) hfind2 h2
      · exfalso
        unfold serviceUpdateCategoria at hok
        rw [hfind] at hok
        dsimp only at hok
        rw [if_pos hshape, if_neg hbiz] at hok
        simp at hok
    · exfalso
      unfold serviceUpdateCategoria at hok
      rw [hfind] at hok
      dsimp only at hok
      rw [if_neg hshape] at hok
      simp at hok
  · intro h
    rw [hativo, h]
  · intro h
    rw [hativo, h]

theorem C9_categoria_ativo_pointer_semantics_witness :
    (findCategoriaAliveById exStore 1 = some exCategoria ∧
     (serviceUpdateCategoria exStore 1 exUpdateAtivoNoneReq).1
        = .ok (applyUpdateCategoria exCategoria exUpdateAtivoNoneReq)) ∧
    ((findCategoriaAliveById (serviceUpdateCategoria exStore 1 exUpdateAtivoNoneReq).2 1
        = some (applyUpdateCategoria exCategoria exUpdateAtivoNoneReq)) ∧
     (exUpdateAtivoNoneReq.ativo = none →
       (applyUpdateCategoria exCategoria exUpdateAtivoNoneReq).ativo = exCategoria.ativo) ∧
     (exUpdateAtivoNoneReq.ativo = some false →
       (applyUpdateCategoria exCategoria exUpdateAtivoNoneReq).ativo = false)) :=
  ⟨⟨by decide, by decide⟩,
   C9_categoria_ativo_pointer_semantics exStore 1 exUpdateAtivoNoneReq exCategoria
     (applyUpdateCategoria exCategoria exUpdateAtivoNoneReq) (by decide) (by decide)⟩

/-- Claim C4: with a fault-free collaborator, product-create business
validation equals the first-failing-check policy over the spec's declared
check order (code non-empty, code uniqueness, price positivity, description
length, category presence, category existence, category active-state); in
particular a request with both an empty code and a non-positive price
reports only the code error. -/
theorem C4_create_checks_fixed_order_first_failing (f : CreateFaults) (s : Store)
    (req : CreateProdutoRequest)
    (hex : f.existsCodigo = none) (hfc : f.findCategoria = none) :
    validateCreateProduto f s req = firstFailingCheck (produtoCreateChecks s req) ∧
    (req.codigo = ("") → req.preco ≤ 0 →
      validateCreateProduto f s req
        = [(("codigo"), ("O código do produto é obrigatório"))]) := by
  have hq : produtoExistsQuery f s req.codigo = .ok (existsProdutoCodigo s req.codigo) := by
    unfold produtoExistsQuery
    rw [hex]
  have hcq : produtoFindCategoriaQuery f s req.categoriaId =
      (match findCategoriaAliveById s req.categoriaId with
       | some c => .ok c
       | none => .error ("record not found")) := by
    unfold produtoFindCategoriaQuery
    rw [hfc]
  constructor
  · unfold validateCreateProduto produtoCreateChecks
    rw [hq, hcq]
    by_cases h1 : req.codigo = ("") <;>
      by_cases h2 : existsProdutoCodigo s req.codigo <;>
        by_cases h3 : req.preco ≤ 0 <;>
          by_cases h4 : req.descricao.utf8ByteSize < 3 <;>
            by_cases h5 : req.categoriaId = 0 <;>
              rcases hfind : findCategoriaAliveById s req.categoriaId with _ | cat <;>
                simp [h1, h2, h3, h4, h5, hfind, firstFailingCheck]
  · intro h1 h2
    unfold validateCreateProduto
    rw [if_pos h1]

theorem C4_create_checks_fixed_order_first_failing_witness :
    noFaults.existsCodigo = none ∧ noFaults.findCategoria = none ∧
    (validateCreateProduto noFaults exStore exEmptyCodigoReq
        = firstFailingCheck (produtoCreateChecks exStore exEmptyCodigoReq) ∧
     (exEmptyCodigoReq.codigo = ("") → exEmptyCodigoReq.preco ≤ 0 →
       validateCreateProduto noFaults exStore exEmptyCodigoReq
         = [(("codigo"), ("O código do produto é obrigatório"))])) :=
  ⟨rfl, rfl,
   C4_create_checks_fixed_order_first_failing noFaults exStore exEmptyCodigoReq rfl rfl⟩

/-- Helper: the sequential normalization of the service agrees with the
spec's independent normalization rules whenever the configured maximum is
at least the default page size of 10. -/
theorem normalizePagination_eq_spec (cfg : ServiceConfig) (page pageSize : Int)
    (hmax : 10 ≤ cfg.maxPageSize) :
    normalizePagination cfg page pageSize
      = (specNormPage page, specNormPageSize cfg.maxPageSize pageSize) := by
  unfold normalizePagination specNormPage specNormPageSize
  split_ifs <;> simp_all

/-- Claim C7: GetAll normalizes page (<1 → 1) and pageSize (<1 → 10,
above the configured maximum → that maximum), reports the normalized pair
in the envelope, and queries the repository at offset
(page−1)×pageSize with limit pageSize over the normalized values. -/
theorem C7_getall_pagination_normalization {α β : Type} (cfg : ServiceConfig)
    (toResp : α → β) (xs : List α) (page pageSize : Int)
    (hmax : 10 ≤ cfg.maxPageSize) :
    getAllService cfg toResp xs page pageSize =
      newPaginatedResponse
        (((xs.drop (((specNormPage page - 1) * specNormPageSize cfg.maxPageSize pageSize).toNat)).take
            (specNormPageSize cfg.maxPageSize pageSize).toNat).map toResp)
        ((xs.length : Int)) (specNormPage page) (specNormPageSize cfg.maxPageSize pageSize) := by
  unfold getAllService repoFindAll
  rw [normalizePagination_eq_spec cfg page pageSize hmax]

theorem C7_getall_pagination_normalization_witness :
    10 ≤ (defaultServiceConfig ("Produto")).maxPageSize ∧
    getAllService (defaultServiceConfig ("Produto")) (fun n => n) ([0, 1, 2] : List Nat) (-3) 0 =
      newPaginatedResponse
        (((([0, 1, 2] : List Nat).drop
            (((specNormPage (-3) - 1) * specNormPageSize (defaultServiceConfig ("Produto")).maxPageSize 0).toNat)).take
            (specNormPageSize (defaultServiceConfig ("Produto")).maxPageSize 0).toNat).map (fun n => n))
        ((([0, 1, 2] : List Nat).length : Int)) (specNormPage (-3))
        (specNormPageSize (defaultServiceConfig ("Produto")).maxPageSize 0) :=
  ⟨by decide,
   C7_getall_pagination_normalization (defaultServiceConfig ("Produto")) (fun n => n)
     ([0, 1, 2] : List Nat) (-3) 0 (by decide)⟩

/-- Claim C10: the envelope constructor divides by pageSize with no zero
guard, but every service list path normalizes pageSize to at least 1
before calling it — GetAll via `normalizePagination` (whose configured
maximum is 100 in `DefaultServiceConfig`), and the product
list-by-category via its inline normalization — so the zero-divisor case
is unreachable through the service interface; the envelope records the
divisor in its pageSize field. -/
theorem C10_list_paths_normalize_divisor {α β : Type} (cfg : ServiceConfig)
    (toResp : α → β) (xs : List α) (s : Store) (cid : Nat)
    (page pageSize page2 pageSize2 : Int) (r : PaginatedResponse Produto)
    (hmax : 1 ≤ cfg.maxPageSize)
    (hok : getByCategoriaID s cid page2 pageSize2 = .ok r) :
    1 ≤ (getAllService cfg toResp xs page pageSize).pageSize ∧
    1 ≤ r.pageSize ∧
    (∀ name, 1 ≤ (defaultServiceConfig name).maxPageSize) := by
  refine ⟨?_, ?_, ?_⟩
  · unfold getAllService newPaginatedResponse normalizePagination
    dsimp only
    split_ifs <;> omega
  · unfold getByCategoriaID at hok
    dsimp only at hok
    by_cases hc : (s.categorias.filter (fun c => c.id == cid && !c.deleted)).length = 0
    · rw [if_pos hc] at hok
      simp at hok
    · rw [if_neg hc, Except.ok.injEq] at hok
      subst hok
      unfold newPaginatedResponse
      dsimp only
      split_ifs <;> omega
  · intro name
    unfold defaultServiceConfig
    norm_num

theorem C10_list_paths_normalize_divisor_witness :
    (1 : Int) ≤ (defaultServiceConfig ("Produto")).maxPageSize ∧
    getByCategoriaID exStore 1 (-1) 0
      = .ok { data := [exProduto], total := 1, page := 1, pageSize := 10, totalPages := 1 } ∧
    1 ≤ (getAllService (defaultServiceConfig ("Produto")) (fun n => n)
          ([] : List Nat) 0 0).pageSize ∧
    1 ≤ ({ data := [exProduto], total := 1, page := 1, pageSize := 10,
           totalPages := 1 } : PaginatedResponse Produto).pageSize :=
  ⟨by decide, by decide,
   (C10_list_paths_normalize_divisor (defaultServiceConfig ("Produto")) (fun n => n)
      ([] : List Nat) exStore 1 0 0 (-1) 0
      { data := [exProduto], total := 1, page := 1, pageSize := 10, totalPages := 1 }
      (by decide) (by decide)).1,
   (C10_list_paths_normalize_divisor (defaultServiceConfig ("Produto")) (fun n => n)
      ([] : List Nat) exStore 1 0 0 (-1) 0
      { data := [exProduto], total := 1, page := 1, pageSize := 10, totalPages := 1 }
      (by decide) (by decide)).2.1⟩

/-- Helper: after every live row carrying `id` is marked deleted, lookup by
`id` finds nothing (Categoria version). -/
theorem find_none_after_mark_deleted_categoria (cs : List Categoria) (id : Nat) :
    (cs.map (fun c => if c.id == id && !c.deleted then { c with deleted := true } else c)).find?
      (fun c => c.id == id && !c.deleted) = none := by
  rw [List.find?_eq_none]
  intro a ha
  rcases List.mem_map.mp ha with ⟨b, hb, rfl⟩
  by_cases hc : (b.id == id && !b.deleted) = true
  · rw [if_pos hc]
    simp
  · rw [if_neg hc]
    exact hc

/-- Claim C1 (amended): while any live product references a category, the
generic chain refuses the Delete and leaves the store untouched, but the
refusal is surfaced as a 400 validation outcome whose field map names the
dependent products — not as a 409, which `HandleError` reserves for
classified DUPLICATE/HAS_RELATIONS business errors that the generic
categoria chain never produces; once no live product references the
category, the same Delete call succeeds with 200 and soft-deletes it. -/
theorem C1_delete_categoria_with_products (s : Store) (id : Nat) (cat : Categoria)
    (hfind : findCategoriaAliveById s id = some cat) :
    (0 < countProdutosAlive s cat.id →
      handlerDeleteCategoria s id =
        ({ status := 400, error := some ("Erro de validação"),
           details := some [(("categoria"),
             ("Não é possível excluir uma categoria que possui produtos"))] }, s)) ∧
    (countProdutosAlive s cat.id = 0 →
      (handlerDeleteCategoria s id).1.status = 200 ∧
      findCategoriaAliveById (handlerDeleteCategoria s id).2 id = none) := by
  have hfind2 : s.categorias.find? (fun q => q.id == id && !q.deleted) = some cat := hfind
  have hmem : cat ∈ s.categorias := List.mem_of_find?_eq_some hfind2
  have hpred : (cat.id == id && !cat.deleted) = true :=
    @List.find?_some _ (fun q => q.id == id && !q.deleted) cat _ hfind2
  constructor
  · intro h
    unfold handlerDeleteCategoria serviceDeleteCategoria
    rw [hfind]
    dsimp only
    rw [if_pos h]
    rfl
  · intro h
    have hne : (s.categorias.filter (fun c => c.id == id && !c.deleted)).length ≠ 0 := by
      have : cat ∈ s.categorias.filter (fun c => c.id == id && !c.deleted) :=
        List.mem_filter.mpr ⟨hmem, hpred⟩
      intro hzero
      rw [List.length_eq_zero] at hzero
      rw [hzero] at this
      simp at this
    unfold handlerDeleteCategoria serviceDeleteCategoria repoDeleteCategorias
    rw [hfind]
    dsimp only
    rw [if_neg (by omega), if_neg hne]
    dsimp only
    constructor
    · rfl
    · exact find_none_after_mark_deleted_categoria s.categorias id

/-- Claim C1 counterexample: with one live product referencing the
category, the externally surfaced status of the generic chain is 400, not
the 409 the claim states. -/
theorem C1_delete_categoria_with_products_counterexample :
    (handlerDeleteCategoria exStore 1).1.status = 400 ∧
    (handlerDeleteCategoria exStore 1).1.status ≠ 409 := by decide

theorem C1_delete_categoria_with_products_witness :
    findCategoriaAliveById exStore 1 = some exCategoria ∧
    0 < countProdutosAlive exStore exCategoria.id ∧
    handlerDeleteCategoria exStore 1 =
      ({ status := 400, error := some ("Erro de validação"),
         details := some [(("categoria"),
           ("Não é possível excluir uma categoria que possui produtos"))] }, exStore) ∧
    countProdutosAlive exStoreNoProduto exCategoria.id = 0 ∧
    (handlerDeleteCategoria exStoreNoProduto 1).1.status = 200 ∧
    findCategoriaAliveById (handlerDeleteCategoria exStoreNoProduto 1).2 1 = none :=
  ⟨by decide, by decide,
   (C1_delete_categoria_with_products exStore 1 exCategoria (by decide)).1 (by decide),
   by decide,
   ((C1_delete_categoria_with_products exStoreNoProduto 1 exCategoria (by decide)).2
      (by decide)).1,
   ((C1_delete_categoria_with_products exStoreNoProduto 1 exCategoria (by decide)).2
      (by decide)).2⟩

/-- Helper: a create request that passes struct-tag validation has a
non-empty code (the `required` tag fires on the empty string). -/
theorem shape_ok_codigo_ne (req : CreateProdutoRequest)
    (h : shapeValidateCreateProduto req = []) : req.codigo ≠ ("") := by
  intro hc
  unfold shapeValidateCreateProduto at h
  rw [if_pos hc] at h
  simp at h

/-- Claim C2 (amended): a product create request whose code duplicates an
existing live product is always rejected with a 400 outcome and nothing is
persisted — the duplicate is reported by the business validator as a field
validation error, which `HandleError` maps to 400, not to the 409
DUPLICATE conflict the claim states; when the request passes struct-tag
validation, the reported field map is exactly the duplicate-code entry. -/
theorem C2_duplicate_codigo_create_rejected (f : CreateFaults) (s : Store)
    (req : CreateProdutoRequest)
    (hex : f.existsCodigo = none)
    (hdup : existsProdutoCodigo s req.codigo = true) :
    (handlerCreateProduto f s req).1.status = 400 ∧
    (handlerCreateProduto f s req).2 = s ∧
    (shapeValidateCreateProduto req = [] →
      (handlerCreateProduto f s req).1.details
        = some [(("codigo"), ("Já existe um produto com este código"))]) := by
  by_cases hsh : shapeValidateCreateProduto req = []
  · have hbiz : validateCreateProduto f s req
        = [(("codigo"), ("Já existe um produto com este código"))] := by
      unfold validateCreateProduto produtoExistsQuery
      rw [if_neg (shape_ok_codigo_ne req hsh), hex]
      dsimp only
      rw [hdup]
    have hsvc : serviceCreateProduto f s req
        = (.error (.validation
            [(("codigo"), ("Já existe um produto com este código"))]), s) := by
      unfold serviceCreateProduto
      rw [hsh, hbiz]
      rfl
    have hh : handlerCreateProduto f s req
        = ({ status := 400, error := some ("Erro de validação"),
             details := some [(("codigo"), ("Já existe um produto com este código"))] }, s) := by
      unfold handlerCreateProduto
      rw [hsh, hsvc]
      dsimp only
      rfl
    rw [hh]
    exact ⟨rfl, rfl, fun _ => rfl⟩
  · have hne : ¬ ((shapeValidateCreateProduto req).isEmpty = true) := by
      simpa [List.isEmpty_iff] using hsh
    have hh : handlerCreateProduto f s req
        = ({ status := 400, error := some ("Erro de validação"),
             details := some (shapeValidateCreateProduto req) }, s) := by
      unfold handlerCreateProduto
      rw [if_neg hne]
    rw [hh]
    exact ⟨rfl, rfl, fun habs => absurd habs hsh⟩

/-- Claim C2 counterexample: creating a product whose code PROD001 already
exists is surfaced by the generic chain as 400, not the claimed 409. -/
theorem C2_duplicate_codigo_create_rejected_counterexample :
    (handlerCreateProduto noFaults exStore exDupCreateReq).1.status = 400 ∧
    (handlerCreateProduto noFaults exStore exDupCreateReq).1.status ≠ 409 ∧
    (handlerCreateProduto noFaults exStore exDupCreateReq).2 = exStore := by decide

theorem C2_duplicate_codigo_create_rejected_witness :
    noFaults.existsCodigo = none ∧
    existsProdutoCodigo exStore exDupCreateReq.codigo = true ∧
    ((handlerCreateProduto noFaults exStore exDupCreateReq).1.status = 400 ∧
     (handlerCreateProduto noFaults exStore exDupCreateReq).2 = exStore ∧
     (shapeValidateCreateProduto exDupCreateReq = [] →
       (handlerCreateProduto noFaults exStore exDupCreateReq).1.details
         = some [(("codigo"), ("Já existe um produto com este código"))])) :=
  ⟨rfl, by decide,
   C2_duplicate_codigo_create_rejected noFaults exStore exDupCreateReq rfl (by decide)⟩

/-- Claim C3 (amended): an unclassified storage failure of the persistence
call itself is surfaced as a generic 500 whose body is the constant
message with no internal detail and nothing is persisted; but a storage
failure during the business-validation uniqueness query is converted by
the validator into a field validation error and surfaces as 400, not the
500 the claim states for that case. -/
theorem C3_storage_error_create_surfaced_500 (f : CreateFaults) (s : Store)
    (req : CreateProdutoRequest) (d : String)
    (hcr : f.create = some d)
    (hsh : shapeValidateCreateProduto req = [])
    (hbiz : validateCreateProduto f s req = []) :
    serviceCreateProduto f s req = (.error (.storage d), s) ∧
    handlerCreateProduto f s req
      = ({ status := 500, error := some ("Erro interno do servidor"), details := none }, s) := by
  have hsvc : serviceCreateProduto f s req = (.error (.storage d), s) := by
    unfold serviceCreateProduto
    rw [hsh, hbiz, hcr]
    rfl
  refine ⟨hsvc, ?_⟩
  unfold handlerCreateProduto
  rw [hsh, hsvc]
  dsimp only
  rfl

/-- Claim C3 counterexample: a storage failure inside the uniqueness check
of business validation surfaces as 400 with the validator's field message,
not as the generic 500 the claim states. -/
theorem C3_storage_error_create_surfaced_500_counterexample :
    (handlerCreateProduto exFaultExists exStore exNewCreateReq).1.status = 400 ∧
    (handlerCreateProduto exFaultExists exStore exNewCreateReq).1.status ≠ 500 ∧
    (handlerCreateProduto exFaultExists exStore exNewCreateReq).1.details
      = some [(("codigo"), ("Erro ao verificar código"))] := by decide

theorem C3_storage_error_create_surfaced_500_witness :
    exFaultCreate.create = some ("disk full") ∧
    shapeValidateCreateProduto exNewCreateReq = [] ∧
    validateCreateProduto exFaultCreate exStore exNewCreateReq = [] ∧
    (serviceCreateProduto exFaultCreate exStore exNewCreateReq
        = (.error (.storage ("disk full")), exStore) ∧
     handlerCreateProduto exFaultCreate exStore exNewCreateReq
        = ({ status := 500, error := some ("Erro interno do servidor"),
             details := none }, exStore)) :=
  ⟨rfl, by decide, by decide,
   C3_storage_error_create_surfaced_500 exFaultCreate exStore exNewCreateReq ("disk full")
     rfl (by decide) (by decide)⟩
